import Mathlib

/-!
# Verification of the aquahome backend payment and service-request controllers

This file embeds the Go controllers of the aquahome backend
(`controllers/payment_controller.go`, `controllers/service_controller.go`)
as executable Lean definitions and proves properties of them.

The embedding models:
* the `crypto/hmac` + `crypto/sha256` + `encoding/hex` signature computation
  used by `VerifyPayment` (a full executable SHA-256 over `Nat`),
* the GORM-backed database as explicit record lists with sequential ids,
* each controller handler as a pure function from
  (actor context, request body, external-call outcomes, database state)
  to (HTTP-level result, new database state, transaction event trace).
-/

namespace Aqua

/-! ## SHA-256 over byte lists (bytes are `Nat` values < 256)

Faithful embedding of the `crypto/sha256` compression function used by
Go's `hmac.New(sha256.New, secret)`. -/

/-- Truncate to a 32-bit word, as all Go `uint32` arithmetic does. -/
def w32 (n : Nat) : Nat := n % 4294967296

/-- Rotation of a 32-bit word to the right by `n` bits. -/
def rotr32 (x n : Nat) : Nat := w32 ((x >>> n) ||| (x <<< (32 - n)))

/-- Bitwise complement within 32 bits. -/
def compl32 (x : Nat) : Nat := x ^^^ 4294967295

/-- The SHA-256 round constants. -/
def sha256K : List Nat :=
  [1116352408, 1899447441, 3049323471, 3921009573, 961987163, 1508970993,
   2453635748, 2870763221, 3624381080, 310598401, 607225278, 1426881987,
   1925078388, 2162078206, 2614888103, 3248222580, 3835390401, 4022224774,
   264347078, 604807628, 770255983, 1249150122, 1555081692, 1996064986,
   2554220882, 2821834349, 2952996808, 3210313671, 3336571891, 3584528711,
   113926993, 338241895, 666307205, 773529912, 1294757372, 1396182291,
   1695183700, 1986661051, 2177026350, 2456956037, 2730485921, 2820302411,
   3259730800, 3345764771, 3516065817, 3600352804, 4094571909, 275423344,
   430227734, 506948616, 659060556, 883997877, 958139571, 1322822218,
   1537002063, 1747873779, 1955562222, 2024104815, 2227730452, 2361852424,
   2428436474, 2756734187, 3204031479, 3329325298]

/-- The SHA-256 initial hash value. -/
def sha256H0 : List Nat :=
  [1779033703, 3144134277, 1013904242, 2773480762,
   1359893119, 2600822924, 528734635, 1541459225]

/-- Big-endian byte expansion: `k` bytes of `n`. -/
def beBytes : Nat → Nat → List Nat
  | 0, _ => []
  | k + 1, n => beBytes k (n >>> 8) ++ [n % 256]

/-- Group bytes into 32-bit big-endian words. -/
def bytesToWords : List Nat → List Nat
  | a :: b :: c :: d :: rest => (((a * 256 + b) * 256 + c) * 256 + d) :: bytesToWords rest
  | _ => []

/-- SHA-256 message padding: append `0x80`, zero bytes up to 56 mod 64,
then the bit length as 8 big-endian bytes. -/
def sha256Pad (msg : List Nat) : List Nat :=
  let len := msg.length
  let padLen := (119 - len % 64) % 64
  msg ++ [0x80] ++ List.replicate padLen 0 ++ beBytes 8 (len * 8)

/-- Split a byte list into 64-byte blocks (fuelled to stay structural). -/
def blocks64Aux : Nat → List Nat → List (List Nat)
  | 0, _ => []
  | _, [] => []
  | fuel + 1, l => l.take 64 :: blocks64Aux fuel (l.drop 64)

/-- Split a byte list into 64-byte blocks. -/
def blocks64 (l : List Nat) : List (List Nat) := blocks64Aux l.length l

/-- Extend the 16 message words of a block to the 64-entry message schedule. -/
def sha256Schedule (ws : List Nat) : List Nat :=
  (List.range 48).foldl
    (fun acc _ =>
      let n := acc.length
      let w15 := acc.getD (n - 15) 0
      let w2 := acc.getD (n - 2) 0
      let w16 := acc.getD (n - 16) 0
      let w7 := acc.getD (n - 7) 0
      let s0 := rotr32 w15 7 ^^^ rotr32 w15 18 ^^^ (w15 >>> 3)
      let s1 := rotr32 w2 17 ^^^ rotr32 w2 19 ^^^ (w2 >>> 10)
      acc ++ [w32 (w16 + s0 + w7 + s1)])
    ws

/-- One SHA-256 round, acting on the 8-word working state. -/
def sha256Round (st : List Nat) (wk : Nat × Nat) : List Nat :=
  let a := st.getD 0 0
  let b := st.getD 1 0
  let c := st.getD 2 0
  let d := st.getD 3 0
  let e := st.getD 4 0
  let f := st.getD 5 0
  let g := st.getD 6 0
  let h := st.getD 7 0
  let s1 := rotr32 e 6 ^^^ rotr32 e 11 ^^^ rotr32 e 25
  let ch := (e &&& f) ^^^ (compl32 e &&& g)
  let temp1 := w32 (h + s1 + ch + wk.2 + wk.1)
  let s0 := rotr32 a 2 ^^^ rotr32 a 13 ^^^ rotr32 a 22
  let maj := (a &&& b) ^^^ (a &&& c) ^^^ (b &&& c)
  let temp2 := w32 (s0 + maj)
  [w32 (temp1 + temp2), a, b, c, w32 (d + temp1), e, f, g]

/-- Process one 64-byte block. -/
def sha256Compress (h : List Nat) (block : List Nat) : List Nat :=
  let st := ((sha256Schedule (bytesToWords block)).zip sha256K).foldl sha256Round h
  (h.zip st).map fun p => w32 (p.1 + p.2)

/-- SHA-256 of a byte list, as 32 bytes. -/
def sha256 (msg : List Nat) : List Nat :=
  let hs := (blocks64 (sha256Pad msg)).foldl sha256Compress sha256H0
  (hs.map (beBytes 4)).flatten

/-- UTF-8 encoding of one code point, as Go's `[]byte(string)` produces. -/
def utf8Encode (c : Nat) : List Nat :=
  if c < 0x80 then [c]
  else if c < 0x800 then [0xc0 ||| (c >>> 6), 0x80 ||| (c &&& 0x3f)]
  else if c < 0x10000 then
    [0xe0 ||| (c >>> 12), 0x80 ||| ((c >>> 6) &&& 0x3f), 0x80 ||| (c &&& 0x3f)]
  else
    [0xf0 ||| (c >>> 18), 0x80 ||| ((c >>> 12) &&& 0x3f),
     0x80 ||| ((c >>> 6) &&& 0x3f), 0x80 ||| (c &&& 0x3f)]

/-- The bytes of a string, mirroring Go's `[]byte(s)`. -/
def strBytes (s : String) : List Nat := (s.data.map fun c => utf8Encode c.toNat).flatten

/-- HMAC-SHA256 over byte lists, as `crypto/hmac` computes it. -/
def hmacSha256 (key msg : List Nat) : List Nat :=
  let k0 := if 64 < key.length then sha256 key else key
  let kpad := k0 ++ List.replicate (64 - k0.length) 0
  let ipad := kpad.map fun b => b ^^^ 0x36
  let opad := kpad.map fun b => b ^^^ 0x5c
  sha256 (opad ++ sha256 (ipad ++ msg))

/-- One lowercase hex digit. -/
def hexDigit (n : Nat) : Char := if n < 10 then Char.ofNat (48 + n) else Char.ofNat (87 + n)

/-- Lowercase hex encoding of a byte list, as `encoding/hex` produces. -/
def bytesToHex (bs : List Nat) : String :=
  String.mk (bs.map fun b => [hexDigit (b / 16), hexDigit (b % 16)]).flatten

/-- Hex-encoded HMAC-SHA256, the exact signature computation of
`VerifyPayment` and `verifyRazorpaySignature`
(`hex.EncodeToString` of `hmac.New(sha256.New, secret)` over `data`). -/
def hmacSha256Hex (secret data : String) : String :=
  bytesToHex (hmacSha256 (strBytes secret) (strBytes data))

/-! ## Data model

Modelled from the spec: the GORM models live in the `aquahome/database`
package, which is not part of the sources at hand; the record fields and the
status/role string constants below are reconstructed from §3/§4.6/§6 of the
spec and from every use the controllers make of them. -/

/-- Modelled from the spec: `database.OrderStatusPending`. -/
def OrderStatusPending : String := "pending"

/-- Modelled from the spec: `database.OrderStatusApproved`. -/
def OrderStatusApproved : String := "approved"

/-- Modelled from the spec: `database.PaymentStatusPending`. -/
def PaymentStatusPending : String := "pending"

/-- Modelled from the spec: `database.PaymentStatusSuccess`. -/
def PaymentStatusSuccess : String := "success"

/-- Modelled from the spec: `database.SubscriptionStatusActive`. -/
def SubscriptionStatusActive : String := "active"

/-- Modelled from the spec: `database.ServiceStatusPending`. -/
def ServiceStatusPending : String := "pending"

/-- Modelled from the spec: `database.ServiceStatusAssigned`. -/
def ServiceStatusAssigned : String := "assigned"

/-- Modelled from the spec: `database.ServiceStatusScheduled`. -/
def ServiceStatusScheduled : String := "scheduled"

/-- Modelled from the spec: `database.ServiceStatusCompleted`. -/
def ServiceStatusCompleted : String := "completed"

/-- Modelled from the spec: `database.ServiceStatusCancelled`. -/
def ServiceStatusCancelled : String := "cancelled"

/-- Modelled from the spec: `database.RoleAdmin`. -/
def RoleAdmin : String := "admin"

/-- Modelled from the spec: `database.RoleFranchiseOwner`. -/
def RoleFranchiseOwner : String := "franchise_owner"

/-- Modelled from the spec: `database.RoleServiceAgent`. -/
def RoleServiceAgent : String := "service_agent"

/-- Modelled from the spec: `database.RoleCustomer`. -/
def RoleCustomer : String := "customer"

/-- Modelled from the spec: `database.User` (fields used by the controllers:
id, role, franchise_id; `franchiseID = 0` is the unset GORM zero value). -/
structure User where
  id : Nat
  role : String
  franchiseID : Nat
  deriving Repr, DecidableEq

/-- Modelled from the spec: `database.Franchise` (fields used: id, owner_id). -/
structure Franchise where
  id : Nat
  ownerID : Nat
  deriving Repr, DecidableEq

/-- Modelled from the spec: `database.Product` (price fields used by
`GeneratePaymentOrder`; money is modelled as exact rationals). -/
structure Product where
  id : Nat
  securityDeposit : Rat
  installationFee : Rat
  monthlyRent : Rat
  deriving Repr, DecidableEq

/-- Modelled from the spec: `database.Order`. -/
structure Order where
  id : Nat
  customerID : Nat
  productID : Nat
  franchiseID : Nat
  orderType : String
  status : String
  shippingAddress : String
  billingAddress : String
  rentalDuration : Int
  securityDeposit : Rat
  installationFee : Rat
  totalInitialAmount : Rat
  notes : String
  deriving Repr, DecidableEq

/-- Modelled from the spec: `database.Subscription` (fields selected by the
controllers: id, customer_id, order_id, franchise_id, monthly_rent, status). -/
structure Subscription where
  id : Nat
  customerID : Nat
  orderID : Nat
  franchiseID : Nat
  monthlyRent : Rat
  status : String
  deriving Repr, DecidableEq

/-- Modelled from the spec: `database.Payment`. -/
structure Payment where
  id : Nat
  customerID : Nat
  orderID : Option Nat
  subscriptionID : Option Nat
  amount : Rat
  paymentType : String
  status : String
  paymentMethod : String
  transactionID : String
  paymentDetails : String
  invoiceNumber : String
  deriving Repr, DecidableEq

/-- Modelled from the spec: `database.ServiceRequest`. -/
structure ServiceRequest where
  id : Nat
  customerID : Nat
  subscriptionID : Nat
  type : String
  status : String
  description : String
  scheduledTime : Option String
  completionTime : Option String
  serviceAgentID : Option Nat
  rating : Option Int
  feedback : String
  notes : String
  deriving Repr, DecidableEq

/-- Modelled from the spec: `database.Notification`. -/
structure Notification where
  userID : Nat
  title : String
  message : String
  type : String
  relatedID : Option Nat
  relatedType : String
  isRead : Bool
  deriving Repr, DecidableEq

/-- The relational store: one list per table, plus the auto-increment
counters the controllers rely on for newly created rows. -/
structure DBState where
  users : List User
  franchises : List Franchise
  products : List Product
  orders : List Order
  subscriptions : List Subscription
  payments : List Payment
  serviceRequests : List ServiceRequest
  notifications : List Notification
  nextOrderID : Nat
  nextPaymentID : Nat
  deriving Repr, DecidableEq

/-- Transaction / side-effect events, used to state in which order a handler
touches the store and the gateway. -/
inductive Ev where
  | txBegin
  | txCommit
  | txRollback
  | gatewayCall
  | insertOrder
  | insertPayment
  | insertNotification
  | updatePayment
  | updateOrder
  deriving Repr, DecidableEq

/-! ## Payment controller

Embedding of `GeneratePaymentOrder`, `VerifyPayment` and
`GenerateMonthlyPayment` from the payment controller source. External
collaborators appear as parameters: the Razorpay order creation is an
`Option String` (`some id` on success, `none` on gateway failure), clock
values are strings passed in, and the one storage operation whose failure
the source tolerates is a `Bool` flag. -/

/-- Request body of `GeneratePaymentOrder` (`RazorpayOrderRequest`). -/
structure RazorpayOrderRequest where
  productID : Nat
  franchiseID : Nat
  shippingAddress : String
  billingAddress : String
  rentalDuration : Int
  notes : String
  deriving Repr, DecidableEq

/-- Request body of `VerifyPayment` (`PaymentVerificationRequest`). -/
structure PaymentVerificationRequest where
  paymentID : String
  orderID : String
  signature : String
  aquaHomeOrderID : Int
  subscriptionID : Option Int
  deriving Repr, DecidableEq

/-- Request body of `GenerateMonthlyPayment` (`MonthlyPaymentRequest`). -/
structure MonthlyPaymentRequest where
  subscriptionID : Int
  deriving Repr, DecidableEq

/-- Outcomes of `GeneratePaymentOrder`, one per `c.JSON` exit of the source. -/
inductive GenerateOrderResult where
  | permissionDenied
  | invalidRequest
  | productNotFound
  | gatewayError
  | created (razorpayOrderID : String) (amount : Rat) (orderID : Nat)
  deriving Repr, DecidableEq

/-- Outcomes of `VerifyPayment`, one per `c.JSON` exit of the source. -/
inductive VerifyPaymentResult where
  | permissionDenied
  | missingFields
  | invalidSignature
  | alreadyProcessed
  | subscriptionNotFound
  | subscriptionNotActive
  | invalidOrderID
  | orderNotFound
  | orderNotPending (current : String)
  | pendingPaymentNotFound
  | paymentRecordNotUpdated
  | orderRecordNotUpdated
  | verified (orderID : Int) (paymentType : String)
  deriving Repr, DecidableEq

/-- Outcomes of `GenerateMonthlyPayment`, one per `c.JSON` exit of the source. -/
inductive MonthlyPaymentResult where
  | permissionDenied
  | invalidRequest
  | subscriptionNotFound
  | subscriptionNotActive
  | gatewayError
  | created (razorpayOrderID : String) (amount : Rat) (subscriptionID : Nat)
  deriving Repr, DecidableEq

/-- Embedding of `GeneratePaymentOrder`: order creation with the initial payment intent.
`gatewayOrderID` is the outcome of `client.Order.Create`. Writes made inside
the open transaction are buffered and only become the returned state on
commit; every rollback path returns the original `db`. -/
def GeneratePaymentOrder (role : String) (customerID : Nat)
    (req : RazorpayOrderRequest) (gatewayOrderID : Option String)
    (db : DBState) : GenerateOrderResult × DBState × List Ev :=
  if role ≠ "customer" then (.permissionDenied, db, [])
  else if req.productID = 0 ∨ req.franchiseID = 0 ∨ req.shippingAddress = "" ∨
      req.billingAddress = "" ∨ req.rentalDuration < 1 then
    -- gin `binding:"required"` / `min=1` validation of `ShouldBindJSON`
    (.invalidRequest, db, [])
  else
    match db.products.find? (fun p => p.id == req.productID) with
    | none => (.productNotFound, db, [.txBegin, .txRollback])
    | some product =>
      let base := product.securityDeposit + product.installationFee
      let totalAmount :=
        if 0 < req.rentalDuration then
          base + product.monthlyRent * (req.rentalDuration : Rat)
        else base
      let order : Order :=
        { id := db.nextOrderID
          customerID := customerID
          productID := req.productID
          franchiseID := req.franchiseID
          orderType := "rental"
          status := OrderStatusPending
          shippingAddress := req.shippingAddress
          billingAddress := req.billingAddress
          rentalDuration := req.rentalDuration
          securityDeposit := product.securityDeposit
          installationFee := product.installationFee
          totalInitialAmount := totalAmount
          notes := req.notes }
      let pending1 : DBState :=
        { db with orders := db.orders ++ [order], nextOrderID := db.nextOrderID + 1 }
      match gatewayOrderID with
      | none => (.gatewayError, db, [.txBegin, .insertOrder, .gatewayCall, .txRollback])
      | some rzpID =>
        let payment : Payment :=
          { id := pending1.nextPaymentID
            customerID := customerID
            orderID := some order.id
            subscriptionID := none
            amount := order.totalInitialAmount
            paymentType := "initial"
            status := PaymentStatusPending
            paymentMethod := "razorpay"
            transactionID := rzpID
            -- `toJSONString(razorpayOrder)`: only the id of the opaque
            -- gateway response is modelled
            paymentDetails := "\x7b\"id\": \"" ++ rzpID ++ "\"\x7d"
            invoiceNumber := "" }
        let pending2 : DBState :=
          { pending1 with
            payments := pending1.payments ++ [payment]
            nextPaymentID := pending1.nextPaymentID + 1 }
        (.created rzpID order.totalInitialAmount order.id, pending2,
         [.txBegin, .insertOrder, .gatewayCall, .insertPayment, .txCommit])

/-- The display-name map lookup of `VerifyPayment` (the Go map access yields
the zero value `""` for any other key). -/
def paymentTypeDisplay (t : String) : String :=
  if t = "initial" then "Initial" else if t = "monthly" then "Monthly" else ""

/-- The shared tail of `VerifyPayment`: create the success notification
(best-effort) and commit. -/
def verifyFinish (paymentType : String) (orderID : Int) (customerID : Nat)
    (db : DBState) (tr : List Ev) : VerifyPaymentResult × DBState × List Ev :=
  let notification : Notification :=
    { userID := customerID
      title := "Payment Successful"
      message := paymentTypeDisplay paymentType ++ " payment has been processed successfully."
      type := "payment"
      relatedID := some orderID.toNat
      relatedType := "order"
      isRead := false }
  (.verified orderID paymentType,
   { db with notifications := db.notifications ++ [notification] },
   tr ++ [.insertNotification, .txCommit])

/-- Embedding of `VerifyPayment`: payment confirmation reconciliation. `secret` is
`config.AppConfig.RazorpaySecret`, `now` the RFC3339 clock reading used in
the details blob. The returned event list records transaction boundaries and
store writes in source order; rollback paths return the original `db`. -/
def VerifyPayment (secret now : String) (role : String) (customerID : Nat)
    (req : PaymentVerificationRequest) (db : DBState) :
    VerifyPaymentResult × DBState × List Ev :=
  if role ≠ "customer" then (.permissionDenied, db, [])
  else if req.paymentID = "" ∨ req.orderID = "" ∨ req.signature = "" then
    (.missingFields, db, [])
  else
    let expectedSignature := hmacSha256Hex secret (req.orderID ++ "|" ++ req.paymentID)
    if expectedSignature ≠ req.signature then (.invalidSignature, db, [])
    else if (db.payments.find? fun p =>
        p.transactionID == req.paymentID && p.status == PaymentStatusSuccess).isSome then
      -- idempotency gate, evaluated on `database.DB` before `tx := DB.Begin()`
      (.alreadyProcessed, db, [])
    else
      match req.subscriptionID with
      | some sid =>
        match db.subscriptions.find? (fun s =>
            ((s.id : Int) == sid) && (s.customerID == customerID)) with
        | none => (.subscriptionNotFound, db, [.txBegin, .txRollback])
        | some subscription =>
          if subscription.status ≠ "active" then
            (.subscriptionNotActive, db, [.txBegin, .txRollback])
          else
            -- the source contains only the comment "Rest of subscription
            -- payment logic..." here: no subscription or payment row is
            -- modified before falling through to the notification
            verifyFinish "monthly" (subscription.orderID : Int) customerID db [.txBegin]
      | none =>
        let orderID := req.aquaHomeOrderID
        if orderID ≤ 0 then (.invalidOrderID, db, [.txBegin, .txRollback])
        else
          match db.orders.find? (fun o =>
              ((o.id : Int) == orderID) && (o.customerID == customerID)) with
          | none => (.orderNotFound, db, [.txBegin, .txRollback])
          | some order =>
            if order.status ≠ OrderStatusPending then
              (.orderNotPending order.status, db, [.txBegin, .txRollback])
            else
              match db.payments.find? (fun p =>
                  (p.orderID == some orderID.toNat) && (p.paymentType == "initial") &&
                  (p.status == PaymentStatusPending)) with
              | none => (.pendingPaymentNotFound, db, [.txBegin, .txRollback])
              | some pendingPayment =>
                let paymentDetails :=
                  "\x7b\"razorpay_order_id\": \"" ++ req.orderID ++
                  "\", \"razorpay_payment_id\": \"" ++ req.paymentID ++
                  "\", \"verified_at\": \"" ++ now ++ "\"\x7d"
                let payments1 := db.payments.map fun p =>
                  if p.id == pendingPayment.id then
                    { p with
                      status := PaymentStatusSuccess
                      transactionID := req.paymentID
                      paymentMethod := "razorpay"
                      paymentDetails := paymentDetails }
                  else p
                let rows1 := db.payments.countP fun p => p.id == pendingPayment.id
                if rows1 = 0 then
                  (.paymentRecordNotUpdated, db, [.txBegin, .updatePayment, .txRollback])
                else
                  let orders1 := db.orders.map fun o =>
                    if (o.id : Int) == orderID then { o with status := OrderStatusApproved }
                    else o
                  let rows2 := db.orders.countP fun o => (o.id : Int) == orderID
                  if rows2 = 0 then
                    (.orderRecordNotUpdated, db,
                     [.txBegin, .updatePayment, .updateOrder, .txRollback])
                  else
                    verifyFinish "initial" orderID customerID
                      { db with payments := payments1, orders := orders1 }
                      [.txBegin, .updatePayment, .updateOrder]

/-- Embedding of `generateMonthlyInvoiceNumber`; `today` is the formatted clock value. -/
def generateMonthlyInvoiceNumber (today : String) (subscriptionID : Nat) : String :=
  "INV-M-" ++ today ++ "-" ++ toString subscriptionID

/-- Embedding of `GenerateMonthlyPayment`: refresh or create the pending monthly payment
intent. `storeFails` is the outcome of the one `Create`/`Save` the source
only logs on failure ("Continue anyway, we'll update it during
verification"). -/
def GenerateMonthlyPayment (today : String) (role : String) (customerID : Nat)
    (req : MonthlyPaymentRequest) (gatewayOrderID : Option String)
    (storeFails : Bool) (db : DBState) : MonthlyPaymentResult × DBState :=
  if role ≠ "customer" then (.permissionDenied, db)
  else if req.subscriptionID = 0 then (.invalidRequest, db)
  else
    match db.subscriptions.find? (fun s =>
        ((s.id : Int) == req.subscriptionID) && (s.customerID == customerID)) with
    | none => (.subscriptionNotFound, db)
    | some subscription =>
      if subscription.status ≠ SubscriptionStatusActive then (.subscriptionNotActive, db)
      else
        match gatewayOrderID with
        | none => (.gatewayError, db)
        | some rzpID =>
          let details := "\x7b\"razorpay_order_id\": \"" ++ rzpID ++ "\"\x7d"
          match db.payments.find? (fun p =>
              (p.subscriptionID == some subscription.id) && (p.paymentType == "monthly") &&
              (p.status == PaymentStatusPending)) with
          | none =>
            let newPayment : Payment :=
              { id := db.nextPaymentID
                customerID := customerID
                orderID := none
                subscriptionID := some subscription.id
                amount := subscription.monthlyRent
                paymentType := "monthly"
                status := PaymentStatusPending
                paymentMethod := ""
                transactionID := rzpID
                paymentDetails := details
                invoiceNumber := generateMonthlyInvoiceNumber today subscription.id }
            let db2 :=
              if storeFails then db  -- Create error is only logged; handler continues
              else
                { db with
                  payments := db.payments ++ [newPayment]
                  nextPaymentID := db.nextPaymentID + 1 }
            (.created rzpID subscription.monthlyRent subscription.id, db2)
          | some payment =>
            let db2 :=
              if storeFails then db  -- Save error is only logged; handler continues
              else
                { db with
                  payments := db.payments.map fun p =>
                    if p.id == payment.id then
                      { p with transactionID := rzpID, paymentDetails := details }
                    else p }
            (.created rzpID subscription.monthlyRent subscription.id, db2)

/-! ## Service request controller

Embedding of `UpdateServiceRequest`, `CancelServiceRequest` and
`AssignServiceRequestToAgent` from the service controller source.
`parseTime` stands for the library call `time.Parse(time.RFC3339, s)`
(`some t` on success). -/

/-- Request body of `UpdateServiceRequest` (`ServiceRequestUpdateRequest`);
`agentID = 0` is the unset GORM/gin zero value of the `uint` field. -/
structure ServiceRequestUpdateRequest where
  status : String
  agentID : Nat
  scheduledDate : String
  completionDate : String
  notes : String
  deriving Repr, DecidableEq

/-- HTTP-level outcomes of the service request handlers, tagged with the
response message of the corresponding `c.JSON` exit. -/
inductive SvcResult where
  | badRequest (msg : String)
  | forbidden (msg : String)
  | notFound (msg : String)
  | serverError (msg : String)
  | ok (msg : String)
  deriving Repr, DecidableEq

/-- The pending `updates` map built by `UpdateServiceRequest`; a `none`
field is a key absent from the map. -/
structure SvcUpdates where
  status : Option String := none
  scheduledTime : Option String := none
  completionTime : Option String := none
  notes : Option String := none
  serviceAgentID : Option Nat := none
  deriving Repr, DecidableEq

/-- The emptiness test on the `updates` map of `UpdateServiceRequest`. -/
def SvcUpdates.isEmpty (u : SvcUpdates) : Bool :=
  u.status.isNone && u.scheduledTime.isNone && u.completionTime.isNone &&
  u.notes.isNone && u.serviceAgentID.isNone

/-- Applying the `updates` map to one service request row
(`tx.Model(...).Where("id = ?", ...).Updates(updates)`). -/
def SvcUpdates.apply (u : SvcUpdates) (sr : ServiceRequest) : ServiceRequest :=
  { sr with
    status := u.status.getD sr.status
    scheduledTime := match u.scheduledTime with
      | some t => some t
      | none => sr.scheduledTime
    completionTime := match u.completionTime with
      | some t => some t
      | none => sr.completionTime
    notes := u.notes.getD sr.notes
    serviceAgentID := match u.serviceAgentID with
      | some a => some a
      | none => sr.serviceAgentID }

/-- The permission `switch role` of `UpdateServiceRequest`: `some r` is an
early rejection, `none` means the update phase is reached. -/
def svcUpdatePermission (role : String) (userID requestID : Nat)
    (req : ServiceRequestUpdateRequest) (db : DBState) : Option SvcResult :=
  if role = RoleAdmin then
    if db.serviceRequests.countP (fun sr => sr.id == requestID) = 0 then
      some (.forbidden "You do not have permission to update this service request")
    else none
  else if role = RoleFranchiseOwner then
    if db.serviceRequests.countP (fun sr =>
        (sr.id == requestID) && db.subscriptions.any (fun sub =>
          (sub.id == sr.subscriptionID) && db.franchises.any (fun fr =>
            (fr.id == sub.franchiseID) && (fr.ownerID == userID)))) = 0 then
      some (.forbidden "You do not have permission to update this service request")
    else none
  else if role = RoleServiceAgent then
    if db.serviceRequests.countP (fun sr =>
        (sr.id == requestID) && (sr.serviceAgentID == some userID)) = 0 then
      some (.forbidden "You do not have permission to update this service request")
    else none
  else if role = RoleCustomer then
    if req.status ≠ ServiceStatusCancelled then
      some (.forbidden "Customers can only cancel service requests")
    else if (db.serviceRequests.find? fun sr =>
        (sr.id == requestID) && (sr.customerID == userID) &&
        (sr.status == ServiceStatusPending)).isNone then
      some (.forbidden "You can only cancel pending service requests")
    else none
  else some (.forbidden "Invalid role")

/-- The `agentCount` query of `UpdateServiceRequest`: franchise owners join
through their own franchises, admins query the user row directly. -/
def svcAgentCount (role : String) (userID agentID : Nat) (db : DBState) : Nat :=
  if role = RoleFranchiseOwner then
    db.users.countP fun u =>
      (u.id == agentID) && (u.role == RoleServiceAgent) &&
      db.franchises.any (fun fr => (fr.id == u.franchiseID) && (fr.ownerID == userID))
  else
    db.users.countP fun u => (u.id == agentID) && (u.role == RoleServiceAgent)

/-- Building the `updates` map of `UpdateServiceRequest` in source order;
`Except.error` is an early `tx.Rollback()` + error response. -/
def svcBuildU (parseTime : String → Option String) (role : String)
    (userID requestID : Nat) (req : ServiceRequestUpdateRequest)
    (db : DBState) : Except SvcResult SvcUpdates :=
  let u1 : SvcUpdates :=
    if req.status ≠ "" ∧ (role = RoleAdmin ∨ role = RoleFranchiseOwner ∨
        role = RoleServiceAgent ∨
        (role = RoleCustomer ∧ req.status = ServiceStatusCancelled)) then
      { status := some req.status }
    else {}
  let step2 : Except SvcResult SvcUpdates :=
    if req.scheduledDate ≠ "" ∧ (role = RoleAdmin ∨ role = RoleFranchiseOwner ∨
        role = RoleServiceAgent) then
      match parseTime req.scheduledDate with
      | none => .error (.badRequest "Invalid scheduled date format")
      | some t => .ok { u1 with scheduledTime := some t }
    else .ok u1
  match step2 with
  | .error r => .error r
  | .ok u2 =>
    let step3 : Except SvcResult SvcUpdates :=
      if req.completionDate ≠ "" ∧ (role = RoleAdmin ∨ role = RoleFranchiseOwner ∨
          role = RoleServiceAgent) then
        match parseTime req.completionDate with
        | none => .error (.badRequest "Invalid completion date format")
        | some t => .ok { u2 with completionTime := some t }
      else .ok u2
    match step3 with
    | .error r => .error r
    | .ok u3 =>
      let u4 : SvcUpdates :=
        if req.notes ≠ "" ∧ (role = RoleAdmin ∨ role = RoleFranchiseOwner ∨
            role = RoleServiceAgent) then
          { u3 with notes := some req.notes }
        else u3
      if req.agentID ≠ 0 ∧ (role = RoleAdmin ∨ role = RoleFranchiseOwner) then
        if svcAgentCount role userID req.agentID db = 0 then
          .error (.badRequest "Invalid service agent ID")
        else
          let u5 : SvcUpdates := { u4 with serviceAgentID := some req.agentID }
          let currentStatus :=
            ((db.serviceRequests.find? fun sr => sr.id == requestID).map
              ServiceRequest.status).getD ""
          if currentStatus = ServiceStatusPending then
            .ok { u5 with status := some ServiceStatusAssigned }
          else .ok u5
      else .ok u4

/-- Embedding of `UpdateServiceRequest`: role-scoped partial update of a service request,
with the follow-up notifications of the source. -/
def UpdateServiceRequest (parseTime : String → Option String) (role : String)
    (userID requestID : Nat) (req : ServiceRequestUpdateRequest)
    (db : DBState) : SvcResult × DBState :=
  match svcUpdatePermission role userID requestID req db with
  | some r => (r, db)
  | none =>
    match svcBuildU parseTime role userID requestID req db with
    | .error r => (r, db)
    | .ok u =>
      if u.isEmpty then (.badRequest "No valid updates provided", db)
      else
        let srs := db.serviceRequests.map fun sr =>
          if sr.id == requestID then u.apply sr else sr
        match srs.find? (fun sr => sr.id == requestID) with
        | none => (.serverError "Server error", db)
        | some updated =>
          let statusNotifs : List Notification :=
            if req.status ≠ "" then
              [{ userID := updated.customerID
                 title := "Service Request Updated"
                 message := "Your service request status has been updated to " ++
                   req.status ++ "."
                 type := "service_request"
                 relatedID := some updated.id
                 relatedType := "service_request"
                 isRead := false }]
            else []
          let agentNotifs : List Notification :=
            if req.agentID ≠ 0 then
              [{ userID := updated.customerID
                 title := "Service Agent Assigned"
                 message := "A service agent has been assigned to your service request."
                 type := "service_request"
                 relatedID := some updated.id
                 relatedType := "service_request"
                 isRead := false },
               { userID := req.agentID
                 title := "New Service Assignment"
                 message := "You have been assigned to service request #" ++
                   toString updated.id ++ "."
                 type := "service_request"
                 relatedID := some updated.id
                 relatedType := "service_request"
                 isRead := false }]
            else []
          let scheduleNotifs : List Notification :=
            if req.scheduledDate ≠ "" then
              [{ userID := updated.customerID
                 title := "Service Visit Scheduled"
                 message := "Your service request has been scheduled for " ++
                   req.scheduledDate ++ "."
                 type := "service_request"
                 relatedID := some updated.id
                 relatedType := "service_request"
                 isRead := false }]
            else []
          (.ok "Service request updated successfully",
           { db with
             serviceRequests := srs
             notifications := db.notifications ++ statusNotifs ++ agentNotifs ++
               scheduleNotifs })

/-- Embedding of `CancelServiceRequest`: customer-endpoint cancellation. Note the source
guard `status ∉ {pending, assigned, scheduled} && role != "customer"`: the
state restriction is skipped entirely for the `customer` role. -/
def CancelServiceRequest (role : String) (userID requestID : Nat)
    (db : DBState) : SvcResult × DBState :=
  match db.serviceRequests.find? (fun sr =>
      (sr.id == requestID) && (sr.customerID == userID)) with
  | none => (.notFound "Service request not found or does not belong to you", db)
  | some serviceRequest =>
    if serviceRequest.status ≠ ServiceStatusPending ∧
        serviceRequest.status ≠ ServiceStatusAssigned ∧
        serviceRequest.status ≠ ServiceStatusScheduled ∧ role ≠ "customer" then
      (.badRequest "Service request cannot be cancelled in its current state", db)
    else
      let srs := db.serviceRequests.map fun s =>
        if s.id == serviceRequest.id then { s with status := ServiceStatusCancelled }
        else s
      let customerNotification : Notification :=
        { userID := userID
          title := "Service Request Cancelled"
          message := "Your service request has been cancelled."
          type := "service_request"
          relatedID := some serviceRequest.id
          relatedType := "service_request"
          isRead := false }
      let agentNotifications : List Notification :=
        match serviceRequest.serviceAgentID with
        | some agentID =>
          [{ userID := agentID
             title := "Service Request Cancelled"
             message := "A service request assigned to you has been cancelled by the customer."
             type := "service_request"
             relatedID := some serviceRequest.id
             relatedType := "service_request"
             isRead := false }]
        | none => []
      (.ok "Service request cancelled successfully",
       { db with
         serviceRequests := srs
         notifications := db.notifications ++ [customerNotification] ++
           agentNotifications })

/-- Embedding of `AssignServiceRequestToAgent`: loads the request by primary key and saves
it back with `ServiceAgentID` overwritten — the source performs no check on
the target user and never touches the status. -/
def AssignServiceRequestToAgent (role : String) (requestID agentID : Nat)
    (db : DBState) : SvcResult × DBState :=
  if role ≠ "admin" ∧ role ≠ "franchise_owner" then (.forbidden "Permission denied", db)
  else if agentID = 0 then (.badRequest "Invalid request body", db)
  else
    match db.serviceRequests.find? (fun sr => sr.id == requestID) with
    | none => (.notFound "Service request not found", db)
    | some serviceRequest =>
      let srs := db.serviceRequests.map fun s =>
        if s.id == serviceRequest.id then { s with serviceAgentID := some agentID }
        else s
      (.ok "Service agent assigned", { db with serviceRequests := srs })

/-! ## Concrete fixtures

Small concrete states and requests used to instantiate the theorems below
at explicit inputs. -/

/-- A pending rental order of customer 7. -/
def demoOrder : Order :=
  { id := 3, customerID := 7, productID := 1, franchiseID := 1
    orderType := "rental", status := "pending"
    shippingAddress := "12 Lake Rd", billingAddress := "12 Lake Rd"
    rentalDuration := 12, securityDeposit := 1000, installationFee := 500
    totalInitialAmount := 5100, notes := "" }

/-- The pending initial payment intent of order 3. -/
def demoInitialPayment : Payment :=
  { id := 11, customerID := 7, orderID := some 3, subscriptionID := none
    amount := 5100, paymentType := "initial", status := "pending"
    paymentMethod := "razorpay", transactionID := "rzp_order_A"
    paymentDetails := "", invoiceNumber := "" }

/-- An active subscription of customer 7 on order 3. -/
def demoSubscription : Subscription :=
  { id := 5, customerID := 7, orderID := 3, franchiseID := 1
    monthlyRent := 500, status := "active" }

/-- The pending monthly payment intent of subscription 5. -/
def demoMonthlyPayment : Payment :=
  { id := 12, customerID := 7, orderID := none, subscriptionID := some 5
    amount := 500, paymentType := "monthly", status := "pending"
    paymentMethod := "", transactionID := "rzp_order_B"
    paymentDetails := "", invoiceNumber := "INV-M-20260101-5" }

/-- The product order 3 was created from. -/
def demoProduct : Product :=
  { id := 1, securityDeposit := 1000, installationFee := 500, monthlyRent := 300 }

/-- Base store for the payment scenarios. -/
def demoDB : DBState :=
  { users := [], franchises := [], products := [demoProduct]
    orders := [demoOrder]
    subscriptions := [demoSubscription]
    payments := [demoInitialPayment, demoMonthlyPayment]
    serviceRequests := [], notifications := []
    nextOrderID := 4, nextPaymentID := 13 }

/-- A correctly signed confirmation of the initial payment of order 3. -/
def demoInitialReq : PaymentVerificationRequest :=
  { paymentID := "pay_I", orderID := "ord_I"
    signature := hmacSha256Hex "sec" ("ord_I" ++ "|" ++ "pay_I")
    aquaHomeOrderID := 3, subscriptionID := none }

/-- A correctly signed confirmation of the monthly payment of subscription 5. -/
def demoMonthlyReq : PaymentVerificationRequest :=
  { paymentID := "pay_M", orderID := "ord_M"
    signature := hmacSha256Hex "sec" ("ord_M" ++ "|" ++ "pay_M")
    aquaHomeOrderID := 0, subscriptionID := some 5 }

/-- A confirmation carrying a signature that is not the expected HMAC. -/
def demoBadSigReq : PaymentVerificationRequest :=
  { paymentID := "pay_I", orderID := "ord_I", signature := "deadbeef"
    aquaHomeOrderID := 3, subscriptionID := none }

/-- A service request of customer 7, parameterised by status and agent. -/
def demoSR (status : String) (agent : Option Nat) : ServiceRequest :=
  { id := 1, customerID := 7, subscriptionID := 5, type := "repair"
    status := status, description := "leaking filter"
    scheduledTime := none, completionTime := none
    serviceAgentID := agent, rating := none, feedback := "", notes := "" }

/-- Store holding one service request of customer 7 in the given status,
plus one service-agent user (id 9) in franchise 1 owned by user 2. -/
def demoSvcDB (status : String) (agent : Option Nat) : DBState :=
  { users := [{ id := 9, role := "service_agent", franchiseID := 1 }]
    franchises := [{ id := 1, ownerID := 2 }]
    products := [], orders := []
    subscriptions := [demoSubscription]
    payments := []
    serviceRequests := [demoSR status agent]
    notifications := []
    nextOrderID := 4, nextPaymentID := 13 }

/-- An update request that only sets the status field. -/
def demoStatusUpd (status : String) : ServiceRequestUpdateRequest :=
  { status := status, agentID := 0, scheduledDate := "", completionDate := ""
    notes := "" }

/-- An update request that only assigns an agent. -/
def demoAgentUpd (agentID : Nat) : ServiceRequestUpdateRequest :=
  { status := "", agentID := agentID, scheduledDate := "", completionDate := ""
    notes := "" }

/-- A trivially succeeding stand-in for `time.Parse(time.RFC3339, s)`. -/
def demoParseTime : String → Option String := fun s => some s

/-- A valid order-creation request for product 1 over 12 months. -/
def demoGenReq : RazorpayOrderRequest :=
  { productID := 1, franchiseID := 1, shippingAddress := "12 Lake Rd"
    billingAddress := "12 Lake Rd", rentalDuration := 12, notes := "" }

/-! ## Helper lemmas -/

theorem length_flatten_map_const {α β : Type} (c : Nat) (f : α → List β)
    (h : ∀ a, (f a).length = c) (l : List α) :
    ((l.map f).flatten).length = c * l.length := by
  induction l with
  | nil => simp
  | cons a t ih => simp [h, ih, Nat.mul_succ]; omega

theorem beBytes_length (k : Nat) : ∀ n, (beBytes k n).length = k := by
  induction k with
  | zero => intro n; rfl
  | succ k ih => intro n; simp [beBytes, ih]

theorem foldl_round_length (l : List (Nat × Nat)) :
    ∀ st : List Nat, st.length = 8 → (l.foldl sha256Round st).length = 8 := by
  induction l with
  | nil => intro st h; simpa using h
  | cons a t ih => intro st h; exact ih _ rfl

theorem sha256Compress_length (h block : List Nat) (hh : h.length = 8) :
    (sha256Compress h block).length = 8 := by
  unfold sha256Compress
  rw [List.length_map, List.length_zip, hh, foldl_round_length _ _ hh]
  rfl

theorem foldl_compress_length (blocks : List (List Nat)) :
    ∀ h : List Nat, h.length = 8 → (blocks.foldl sha256Compress h).length = 8 := by
  induction blocks with
  | nil => intro h hh; simpa using hh
  | cons b t ih => intro h hh; exact ih _ (sha256Compress_length _ _ hh)

theorem sha256_length (msg : List Nat) : (sha256 msg).length = 32 := by
  unfold sha256
  rw [length_flatten_map_const 4 _ (beBytes_length 4), foldl_compress_length _ _ (by rfl)]

theorem bytesToHex_length (bs : List Nat) : (bytesToHex bs).length = 2 * bs.length := by
  show (String.mk _).length = _
  show (List.flatten _).length = _
  rw [length_flatten_map_const 2 _ (fun a => by rfl)]

theorem hmacSha256Hex_length (s d : String) : (hmacSha256Hex s d).length = 64 := by
  unfold hmacSha256Hex hmacSha256
  rw [bytesToHex_length, sha256_length]

theorem hmacSha256Hex_ne_empty (s d : String) : hmacSha256Hex s d ≠ "" := by
  intro h
  have h2 := congrArg String.length h
  rw [hmacSha256Hex_length] at h2
  exact absurd h2 (by decide)

theorem find?_map_update (l : List ServiceRequest) (requestID : Nat)
    (f : ServiceRequest → ServiceRequest) (hf : ∀ sr, (f sr).id = sr.id)
    (sr0 : ServiceRequest)
    (h : l.find? (fun sr => sr.id == requestID) = some sr0) :
    (l.map fun sr => if sr.id == requestID then f sr else sr).find?
      (fun sr => sr.id == requestID) = some (f sr0) := by
  induction l with
  | nil => simp at h
  | cons x t ih =>
    cases hx : (x.id == requestID) with
    | true =>
      simp only [List.find?_cons, hx] at h
      injection h with h
      subst h
      simp only [List.map_cons, hx, if_true, List.find?_cons, hf, reduceIte]
    | false =>
      simp only [List.find?_cons, hx] at h
      simp only [List.map_cons, hx, Bool.false_eq_true, if_false, List.find?_cons, reduceIte]
      exact ih h

/-- Characterization of the subscription branch of `VerifyPayment`: once the
gates pass and the subscription is found active, the handler falls through to
the notification + commit tail without touching any other row — the source
holds only a placeholder comment where the subscription ledger update would
be. Shared by the theorems on claims about that branch. -/
theorem vp_monthly (secret now : String) (customerID : Nat) (sid : Int)
    (req : PaymentVerificationRequest) (db : DBState) (sub : Subscription)
    (hp : req.paymentID ≠ "") (ho : req.orderID ≠ "") (hs : req.signature ≠ "")
    (hsig : req.signature = hmacSha256Hex secret (req.orderID ++ "|" ++ req.paymentID))
    (hidem : (db.payments.find? fun p =>
      p.transactionID == req.paymentID && p.status == PaymentStatusSuccess) = none)
    (hsid : req.subscriptionID = some sid)
    (hfind : db.subscriptions.find? (fun s =>
      ((s.id : Int) == sid) && (s.customerID == customerID)) = some sub)
    (hact : sub.status = "active") :
    VerifyPayment secret now "customer" customerID req db =
      verifyFinish "monthly" (sub.orderID : Int) customerID db [.txBegin] := by
  unfold VerifyPayment
  rw [if_neg (by simp)]
  rw [if_neg (by simp [hp, ho, hs])]
  rw [if_neg (by simp [hsig])]
  rw [hidem]
  simp only [Option.isSome_none, Bool.false_eq_true, if_false]
  rw [hsid]
  simp only [hfind]
  rw [if_neg (by simp [hact])]

/-! ## Claim theorems -/

/-- C3: an initial-order `VerifyPayment` call that passes all gates — actor
is a customer, valid signature, payment id not already processed, order owned
by the actor and pending, and a pending initial Payment exists for the order —
updates that Payment to `success` with the gateway payment id recorded as its
transaction id, updates the Order to `approved`, and creates exactly one
payment notification for the customer, all inside one committed transaction. -/
theorem verifyPayment_initial_success (secret now : String) (customerID : Nat)
    (req : PaymentVerificationRequest) (db : DBState) (order : Order)
    (pendingPayment : Payment)
    (hp : req.paymentID ≠ "") (ho : req.orderID ≠ "") (hs : req.signature ≠ "")
    (hsig : req.signature = hmacSha256Hex secret (req.orderID ++ "|" ++ req.paymentID))
    (hidem : (db.payments.find? fun p =>
      p.transactionID == req.paymentID && p.status == PaymentStatusSuccess) = none)
    (hsid : req.subscriptionID = none)
    (hpos : 0 < req.aquaHomeOrderID)
    (horder : db.orders.find? (fun o =>
      ((o.id : Int) == req.aquaHomeOrderID) && (o.customerID == customerID)) = some order)
    (hpend : order.status = OrderStatusPending)
    (hpay : db.payments.find? (fun p =>
      (p.orderID == some req.aquaHomeOrderID.toNat) && (p.paymentType == "initial") &&
      (p.status == PaymentStatusPending)) = some pendingPayment) :
    VerifyPayment secret now "customer" customerID req db =
      (.verified req.aquaHomeOrderID "initial",
       { db with
         orders := db.orders.map fun o =>
           if (o.id : Int) == req.aquaHomeOrderID then { o with status := OrderStatusApproved }
           else o
         payments := db.payments.map fun p =>
           if p.id == pendingPayment.id then
             { p with
               status := PaymentStatusSuccess
               transactionID := req.paymentID
               paymentMethod := "razorpay"
               paymentDetails :=
                 "\x7b\"razorpay_order_id\": \"" ++ req.orderID ++
                 "\", \"razorpay_payment_id\": \"" ++ req.paymentID ++
                 "\", \"verified_at\": \"" ++ now ++ "\"\x7d" }
           else p
         notifications := db.notifications ++
           [{ userID := customerID
              title := "Payment Successful"
              message := "Initial payment has been processed successfully."
              type := "payment"
              relatedID := some req.aquaHomeOrderID.toNat
              relatedType := "order"
              isRead := false }] },
       [.txBegin, .updatePayment, .updateOrder, .insertNotification, .txCommit]) := by
  have hmemP : pendingPayment ∈ db.payments := List.mem_of_find?_eq_some hpay
  have hmemO : order ∈ db.orders := List.mem_of_find?_eq_some horder
  have hoid : ((order.id : Int) == req.aquaHomeOrderID) = true := by
    have h := List.find?_some horder
    simp only [Bool.and_eq_true] at h
    exact h.1
  have hcnt1 : db.payments.countP (fun p => p.id == pendingPayment.id) ≠ 0 := by
    rw [ne_eq, List.countP_eq_zero]
    intro h
    exact absurd (by simp : (pendingPayment.id == pendingPayment.id) = true) (h _ hmemP)
  have hcnt2 : db.orders.countP (fun o => (o.id : Int) == req.aquaHomeOrderID) ≠ 0 := by
    rw [ne_eq, List.countP_eq_zero]
    intro h
    exact absurd hoid (h _ hmemO)
  unfold VerifyPayment
  rw [if_neg (by simp)]
  rw [if_neg (by simp [hp, ho, hs])]
  rw [if_neg (by simp [hsig])]
  rw [hidem]
  simp only [Option.isSome_none, Bool.false_eq_true, if_false]
  rw [hsid]
  simp only [horder, hpay]
  rw [if_neg (by omega)]
  rw [if_neg (by simp [hpend])]
  rw [if_neg hcnt1, if_neg hcnt2]
  rfl

/-- C3 witness: the concrete scenario of §8 of the spec — order 3 (total
5100) of customer 7, correctly signed confirmation — verifies, approves the
order, marks the payment successful with the gateway payment id, and creates
one notification. -/
theorem verifyPayment_initial_success_witness :
    (VerifyPayment "sec" "2026-01-01T00:00:00Z" "customer" 7 demoInitialReq demoDB).1 =
      .verified 3 "initial" ∧
    ((VerifyPayment "sec" "2026-01-01T00:00:00Z" "customer" 7 demoInitialReq demoDB).2.1.orders.map
      Order.status) = [OrderStatusApproved] ∧
    ((VerifyPayment "sec" "2026-01-01T00:00:00Z" "customer" 7 demoInitialReq demoDB).2.1.payments.map
      fun p => (p.status, p.transactionID)) =
      [(PaymentStatusSuccess, "pay_I"), (PaymentStatusPending, "rzp_order_B")] ∧
    ((VerifyPayment "sec" "2026-01-01T00:00:00Z" "customer" 7 demoInitialReq demoDB).2.1.notifications.map
      Notification.userID) = [7] := by
  have h := verifyPayment_initial_success "sec" "2026-01-01T00:00:00Z" 7 demoInitialReq demoDB
    demoOrder demoInitialPayment
    (by decide) (by decide) (hmacSha256Hex_ne_empty "sec" ("ord_I" ++ "|" ++ "pay_I"))
    rfl (by decide) rfl (by decide) (by decide) rfl (by decide)
  rw [h]
  refine ⟨rfl, by decide, by decide, by decide⟩

/-- C7: a `VerifyPayment` call whose provided signature differs from the
hex-encoded HMAC-SHA256 of `secret` over `orderID + "|" + paymentID` — in
particular any single-character mutation of the valid signature — is rejected
as an invalid signature with no state change and no transaction opened. -/
theorem verifyPayment_signature_mismatch_rejected (secret now : String)
    (customerID : Nat) (req : PaymentVerificationRequest) (db : DBState)
    (hp : req.paymentID ≠ "") (ho : req.orderID ≠ "") (hs : req.signature ≠ "")
    (hmis : req.signature ≠ hmacSha256Hex secret (req.orderID ++ "|" ++ req.paymentID)) :
    VerifyPayment secret now "customer" customerID req db =
      (.invalidSignature, db, []) := by
  unfold VerifyPayment
  rw [if_neg (by simp)]
  rw [if_neg (by simp [hp, ho, hs])]
  rw [if_pos (Ne.symm hmis)]

/-- C7 witness: a confirmation carrying the signature `"deadbeef"` (which is
not the expected 64-character HMAC hex digest) is rejected with no state
change. -/
theorem verifyPayment_signature_mismatch_rejected_witness :
    VerifyPayment "sec" "2026-01-01T00:00:00Z" "customer" 7 demoBadSigReq demoDB =
      (.invalidSignature, demoDB, []) := by
  refine verifyPayment_signature_mismatch_rejected "sec" _ 7 demoBadSigReq demoDB
    (by decide) (by decide) (by decide) ?_
  intro h
  have h2 := congrArg String.length h
  rw [hmacSha256Hex_length] at h2
  exact absurd h2 (by decide)

/-- C1 (failing input): two identical, correctly signed monthly confirmations
for active subscription 5 both succeed — the subscription branch never marks
any Payment `success`, so the second call passes the idempotency gate
untouched instead of being rejected as already processed. -/
theorem verifyPayment_monthly_replay_succeeds_twice :
    (VerifyPayment "sec" "t1" "customer" 7 demoMonthlyReq demoDB).1 =
      .verified 3 "monthly" ∧
    (VerifyPayment "sec" "t2" "customer" 7 demoMonthlyReq
      (VerifyPayment "sec" "t1" "customer" 7 demoMonthlyReq demoDB).2.1).1 =
      .verified 3 "monthly" := by
  have h1 := vp_monthly "sec" "t1" 7 5 demoMonthlyReq demoDB demoSubscription
    (by decide) (by decide) (hmacSha256Hex_ne_empty "sec" ("ord_M" ++ "|" ++ "pay_M"))
    rfl (by decide) rfl (by decide) rfl
  have h2 := vp_monthly "sec" "t2" 7 5 demoMonthlyReq
    (VerifyPayment "sec" "t1" "customer" 7 demoMonthlyReq demoDB).2.1 demoSubscription
    (by decide) (by decide) (hmacSha256Hex_ne_empty "sec" ("ord_M" ++ "|" ++ "pay_M"))
    rfl (by rw [h1]; decide) rfl (by rw [h1]; decide) rfl
  rw [h2, h1]
  exact ⟨rfl, rfl⟩

/-- C2 (failing input): a successful monthly `VerifyPayment` for active
subscription 5 commits with the payments table byte-for-byte unchanged — the
pending monthly Payment (id 12) is never marked `success` before the
notification is created, contrary to the claimed subscription ledger update. -/
theorem verifyPayment_monthly_leaves_ledger_unchanged :
    (VerifyPayment "sec" "t1" "customer" 7 demoMonthlyReq demoDB).1 =
      .verified 3 "monthly" ∧
    (VerifyPayment "sec" "t1" "customer" 7 demoMonthlyReq demoDB).2.1.payments =
      demoDB.payments ∧
    (VerifyPayment "sec" "t1" "customer" 7 demoMonthlyReq demoDB).2.1.subscriptions =
      demoDB.subscriptions := by
  have h1 := vp_monthly "sec" "t1" 7 5 demoMonthlyReq demoDB demoSubscription
    (by decide) (by decide) (hmacSha256Hex_ne_empty "sec" ("ord_M" ++ "|" ++ "pay_M"))
    rfl (by decide) rfl (by decide) rfl
  rw [h1]
  exact ⟨rfl, rfl, rfl⟩

/-- C8: an order-creation call for an existing product with rental duration
at least 1 persists an Order whose `totalInitialAmount` equals
`securityDeposit + installationFee + monthlyRent * rentalDuration`, every
component taken from the product record — the request carries no amount
field at all. -/
theorem generatePaymentOrder_total_formula (customerID : Nat)
    (req : RazorpayOrderRequest) (g : String) (db : DBState) (product : Product)
    (hb1 : req.productID ≠ 0) (hb2 : req.franchiseID ≠ 0)
    (hb3 : req.shippingAddress ≠ "") (hb4 : req.billingAddress ≠ "")
    (hdur : 1 ≤ req.rentalDuration)
    (hprod : db.products.find? (fun p => p.id == req.productID) = some product) :
    GeneratePaymentOrder "customer" customerID req (some g) db =
      (.created g
        (product.securityDeposit + product.installationFee +
          product.monthlyRent * (req.rentalDuration : Rat))
        db.nextOrderID,
       { db with
         orders := db.orders ++
           [{ id := db.nextOrderID
              customerID := customerID
              productID := req.productID
              franchiseID := req.franchiseID
              orderType := "rental"
              status := OrderStatusPending
              shippingAddress := req.shippingAddress
              billingAddress := req.billingAddress
              rentalDuration := req.rentalDuration
              securityDeposit := product.securityDeposit
              installationFee := product.installationFee
              totalInitialAmount := product.securityDeposit + product.installationFee +
                product.monthlyRent * (req.rentalDuration : Rat)
              notes := req.notes }]
         payments := db.payments ++
           [{ id := db.nextPaymentID
              customerID := customerID
              orderID := some db.nextOrderID
              subscriptionID := none
              amount := product.securityDeposit + product.installationFee +
                product.monthlyRent * (req.rentalDuration : Rat)
              paymentType := "initial"
              status := PaymentStatusPending
              paymentMethod := "razorpay"
              transactionID := g
              paymentDetails := "\x7b\"id\": \"" ++ g ++ "\"\x7d"
              invoiceNumber := "" }]
         nextOrderID := db.nextOrderID + 1
         nextPaymentID := db.nextPaymentID + 1 },
       [.txBegin, .insertOrder, .gatewayCall, .insertPayment, .txCommit]) := by
  unfold GeneratePaymentOrder
  rw [if_neg (by simp)]
  rw [if_neg (by simp [hb1, hb2, hb3, hb4]; omega)]
  simp only [hprod]
  rw [if_pos (by omega)]

/-- C8 witness: the §8 scenario — deposit 1000, installation fee 500,
monthly rent 300, duration 12 — yields total 5100. -/
theorem generatePaymentOrder_total_formula_witness :
    (GeneratePaymentOrder "customer" 7 demoGenReq (some "rzp_N") demoDB).1 =
      .created "rzp_N" 5100 4 ∧
    ((GeneratePaymentOrder "customer" 7 demoGenReq (some "rzp_N") demoDB).2.1.orders.map
      Order.totalInitialAmount) = [5100, 5100] := by
  have h := generatePaymentOrder_total_formula 7 demoGenReq "rzp_N" demoDB demoProduct
    (by decide) (by decide) (by decide) (by decide) (by decide) (by decide)
  rw [h]
  constructor
  · show GenerateOrderResult.created "rzp_N" _ _ = _
    norm_num [demoProduct, demoDB, demoGenReq]
  · show List.map _ (demoDB.orders ++ _) = _
    simp [demoDB, demoOrder, demoProduct, demoGenReq]
    norm_num

/-- C9: inside `GeneratePaymentOrder` the order write, the gateway call and
the payment write all happen between one `Begin` and the final
`Commit`/`Rollback`; if the gateway call fails after the order was created,
the whole transaction rolls back and neither an Order nor a Payment
persists. -/
theorem generatePaymentOrder_transactional (customerID : Nat)
    (req : RazorpayOrderRequest) (g : String) (db : DBState) (product : Product)
    (hb1 : req.productID ≠ 0) (hb2 : req.franchiseID ≠ 0)
    (hb3 : req.shippingAddress ≠ "") (hb4 : req.billingAddress ≠ "")
    (hdur : 1 ≤ req.rentalDuration)
    (hprod : db.products.find? (fun p => p.id == req.productID) = some product) :
    GeneratePaymentOrder "customer" customerID req none db =
      (.gatewayError, db, [.txBegin, .insertOrder, .gatewayCall, .txRollback]) ∧
    (GeneratePaymentOrder "customer" customerID req (some g) db).2.2 =
      [.txBegin, .insertOrder, .gatewayCall, .insertPayment, .txCommit] := by
  constructor
  · unfold GeneratePaymentOrder
    rw [if_neg (by simp)]
    rw [if_neg (by simp [hb1, hb2, hb3, hb4]; omega)]
    simp only [hprod]
  · unfold GeneratePaymentOrder
    rw [if_neg (by simp)]
    rw [if_neg (by simp [hb1, hb2, hb3, hb4]; omega)]
    simp only [hprod]

/-- C9 witness: for the concrete request on product 1, a failing gateway
call leaves the store untouched after the recorded rollback, and a
successful call shows the full single-transaction trace. -/
theorem generatePaymentOrder_transactional_witness :
    GeneratePaymentOrder "customer" 7 demoGenReq none demoDB =
      (.gatewayError, demoDB, [.txBegin, .insertOrder, .gatewayCall, .txRollback]) ∧
    (GeneratePaymentOrder "customer" 7 demoGenReq (some "rzp_N") demoDB).2.2 =
      [.txBegin, .insertOrder, .gatewayCall, .insertPayment, .txCommit] :=
  generatePaymentOrder_transactional 7 demoGenReq "rzp_N" demoDB demoProduct
    (by decide) (by decide) (by decide) (by decide) (by decide) (by decide)

/-- C10: when persisting the monthly Payment record fails during
`GenerateMonthlyPayment` — on either the create-new or the update-existing
path — the handler still answers success carrying the new gateway order id,
and the store is left exactly as it was (so no pending Payment row is
guaranteed to exist). -/
theorem generateMonthlyPayment_storage_failure_ignored (today : String)
    (customerID : Nat) (req : MonthlyPaymentRequest) (g : String) (db : DBState)
    (subscription : Subscription)
    (hsid : req.subscriptionID ≠ 0)
    (hfind : db.subscriptions.find? (fun s =>
      ((s.id : Int) == req.subscriptionID) && (s.customerID == customerID)) =
      some subscription)
    (hact : subscription.status = SubscriptionStatusActive) :
    GenerateMonthlyPayment today "customer" customerID req (some g) true db =
      (.created g subscription.monthlyRent subscription.id, db) := by
  unfold GenerateMonthlyPayment
  rw [if_neg (by simp)]
  rw [if_neg (by simp [hsid])]
  simp only [hfind]
  rw [if_neg (by simp [hact, SubscriptionStatusActive])]
  rcases hfp : db.payments.find? (fun p =>
      (p.subscriptionID == some subscription.id) && (p.paymentType == "monthly") &&
      (p.status == PaymentStatusPending)) with _ | p <;> simp [hfp]

/-- C10 witness: with the store write failing, the request for subscription 5
still returns the fresh gateway order id and leaves the store unchanged. -/
theorem generateMonthlyPayment_storage_failure_ignored_witness :
    GenerateMonthlyPayment "20260101" "customer" 7 { subscriptionID := 5 }
      (some "rzp_C") true demoDB = (.created "rzp_C" 500 5, demoDB) := by
  have h := generateMonthlyPayment_storage_failure_ignored "20260101" 7
    { subscriptionID := 5 } "rzp_C" demoDB demoSubscription
    (by decide) (by decide) rfl
  rw [h]
  norm_num [demoSubscription]

/-- C4 (counterexample): service request 1 is `cancelled`, yet an admin
`UpdateServiceRequest` setting status `"pending"` succeeds and the request is
observed in `pending` afterwards — `cancelled` is not a terminal state under
the code. -/
theorem updateServiceRequest_admin_reopens_cancelled :
    (UpdateServiceRequest demoParseTime "admin" 2 1 (demoStatusUpd "pending")
      (demoSvcDB "cancelled" none)).1 = .ok "Service request updated successfully" ∧
    ((UpdateServiceRequest demoParseTime "admin" 2 1 (demoStatusUpd "pending")
      (demoSvcDB "cancelled" none)).2.serviceRequests.map ServiceRequest.status) =
      ["pending"] := by decide

/-- C4 (amended): once every copy of a request is `cancelled`, it stays
`cancelled` under `CancelServiceRequest` for every role, and a customer-role
`UpdateServiceRequest` leaves the store entirely unchanged; only the
admin/franchise-owner/service-agent update path can leave `cancelled`. -/
theorem cancelled_is_terminal_for_customer_operations
    (role : String) (userID requestID : Nat) (req : ServiceRequestUpdateRequest)
    (pt : String → Option String) (db : DBState)
    (h : db.serviceRequests.all
      (fun sr => (sr.id != requestID) || (sr.status == ServiceStatusCancelled)) = true) :
    ((CancelServiceRequest role userID requestID db).2.serviceRequests.all
      (fun sr => (sr.id != requestID) || (sr.status == ServiceStatusCancelled)) = true) ∧
    (UpdateServiceRequest pt RoleCustomer userID requestID req db).2 = db := by
  constructor
  · rcases hf : db.serviceRequests.find? (fun s =>
        (s.id == requestID) && (s.customerID == userID)) with _ | sr
    · unfold CancelServiceRequest
      simp only [hf]
      exact h
    · unfold CancelServiceRequest
      simp only [hf]
      by_cases hc : sr.status ≠ ServiceStatusPending ∧ sr.status ≠ ServiceStatusAssigned ∧
          sr.status ≠ ServiceStatusScheduled ∧ role ≠ "customer"
      · rw [if_pos hc]
        exact h
      · rw [if_neg hc]
        simp only [List.all_eq_true] at h ⊢
        intro x hx
        rcases List.mem_map.mp hx with ⟨y, hy, hxy⟩
        by_cases hid : (y.id == sr.id) = true
        · rw [if_pos hid] at hxy
          subst hxy
          simp
        · rw [if_neg hid] at hxy
          subst hxy
          exact h y hy
  · unfold UpdateServiceRequest svcUpdatePermission
    simp only [RoleCustomer, RoleAdmin, RoleFranchiseOwner, RoleServiceAgent,
      String.reduceEq, if_false, reduceIte]
    by_cases hc : req.status = ServiceStatusCancelled
    · rw [if_neg (by simp [hc])]
      have hnone : db.serviceRequests.find? (fun sr =>
          (sr.id == requestID) && (sr.customerID == userID) &&
          (sr.status == ServiceStatusPending)) = none := by
        rw [List.find?_eq_none]
        intro x hx
        simp only [List.all_eq_true] at h
        have hx2 := h x hx
        simp only [Bool.or_eq_true, bne_iff_ne, ne_eq, beq_iff_eq] at hx2
        simp only [Bool.and_eq_true, beq_iff_eq, not_and]
        intro hxid hps
        rcases hx2 with h2 | h2
        · exact h2 hxid.1
        · rw [h2] at hps
          exact absurd hps (by decide)
      rw [hnone]
      rfl
    · rw [if_pos (by simpa using hc)]

/-- C4 witness: with the single request 1 cancelled, a franchise-owner
cancellation keeps it cancelled and a customer update bounces off with the
store unchanged. -/
theorem cancelled_is_terminal_for_customer_operations_witness :
    ((CancelServiceRequest "franchise_owner" 7 1 (demoSvcDB "cancelled" none)).2.serviceRequests.all
      (fun sr => (sr.id != 1) || (sr.status == ServiceStatusCancelled)) = true) ∧
    (UpdateServiceRequest demoParseTime RoleCustomer 7 1 (demoStatusUpd "cancelled")
      (demoSvcDB "cancelled" none)).2 = demoSvcDB "cancelled" none :=
  cancelled_is_terminal_for_customer_operations "franchise_owner" 7 1
    (demoStatusUpd "cancelled") demoParseTime (demoSvcDB "cancelled" none) (by decide)

/-- C5 (counterexample): a customer cancels their `completed` service request
1 — the call succeeds and the request becomes `cancelled`, because the
invalid-state guard is skipped entirely for the `customer` role. -/
theorem cancelServiceRequest_customer_cancels_completed :
    (CancelServiceRequest "customer" 7 1 (demoSvcDB "completed" (some 9))).1 =
      .ok "Service request cancelled successfully" ∧
    ((CancelServiceRequest "customer" 7 1 (demoSvcDB "completed" (some 9))).2.serviceRequests.map
      ServiceRequest.status) = [ServiceStatusCancelled] := by decide

/-- C5 (amended): once the request is found for `(id, customerID = actor)`,
`CancelServiceRequest` succeeds — transitioning the request to `cancelled` —
whenever the actor role is `customer` (from any status) or the status is
`pending`/`assigned`/`scheduled`; only a non-customer role with a status
outside those three is rejected with the invalid-state error and an unchanged
store. -/
theorem cancelServiceRequest_characterization
    (role : String) (userID requestID : Nat) (db : DBState) (sr : ServiceRequest)
    (hfind : db.serviceRequests.find? (fun s =>
      (s.id == requestID) && (s.customerID == userID)) = some sr) :
    ((role = "customer" ∨ sr.status = ServiceStatusPending ∨
        sr.status = ServiceStatusAssigned ∨ sr.status = ServiceStatusScheduled) →
      (CancelServiceRequest role userID requestID db).1 =
        .ok "Service request cancelled successfully" ∧
      (CancelServiceRequest role userID requestID db).2.serviceRequests =
        db.serviceRequests.map (fun s =>
          if s.id == sr.id then { s with status := ServiceStatusCancelled } else s)) ∧
    ((role ≠ "customer" ∧ sr.status ≠ ServiceStatusPending ∧
        sr.status ≠ ServiceStatusAssigned ∧ sr.status ≠ ServiceStatusScheduled) →
      CancelServiceRequest role userID requestID db =
        (.badRequest "Service request cannot be cancelled in its current state", db)) := by
  unfold CancelServiceRequest
  simp only [hfind]
  constructor
  · intro hd
    rw [if_neg]
    · exact ⟨rfl, rfl⟩
    · rintro ⟨c1, c2, c3, c4⟩
      rcases hd with h | h | h | h
      · exact c4 h
      · exact c1 h
      · exact c2 h
      · exact c3 h
  · rintro ⟨h1, h2, h3, h4⟩
    rw [if_pos ⟨h2, h3, h4, h1⟩]

/-- C5 witness: the same completed request 1 is rejected for a non-customer
caller with the store unchanged, as the guard prescribes. -/
theorem cancelServiceRequest_characterization_witness :
    CancelServiceRequest "franchise_owner" 7 1 (demoSvcDB "completed" (some 9)) =
      (.badRequest "Service request cannot be cancelled in its current state",
       demoSvcDB "completed" (some 9)) := by
  have h := cancelServiceRequest_characterization "franchise_owner" 7 1
    (demoSvcDB "completed" (some 9)) (demoSR "completed" (some 9)) (by decide)
  exact h.2 (by decide)

/-- C6 (counterexample): `AssignServiceRequestToAgent` by an admin records
agent id 99 on pending request 1 even though no user 99 exists, and the
status stays `pending` instead of advancing to `assigned`. -/
theorem assignServiceRequestToAgent_skips_validation :
    (AssignServiceRequestToAgent "admin" 1 99 (demoSvcDB "pending" none)).1 =
      .ok "Service agent assigned" ∧
    ((AssignServiceRequestToAgent "admin" 1 99 (demoSvcDB "pending" none)).2.serviceRequests.map
      (fun sr => (sr.status, sr.serviceAgentID))) = [(ServiceStatusPending, some 99)] := by decide

/-- C6 (amended): assignment through `UpdateServiceRequest` validates the
target — an admin needs an existing `service_agent` user, a franchise owner
additionally one of their own franchise — and advances a pending request to
`assigned`; `AssignServiceRequestToAgent`, however, records the agent id with
no user validation and no status change. -/
theorem agent_assignment_characterization (pt : String → Option String)
    (userID requestID agentID : Nat) (db : DBState) (sr0 : ServiceRequest)
    (hsr : db.serviceRequests.find? (fun sr => sr.id == requestID) = some sr0)
    (hagent : agentID ≠ 0) :
    (db.users.countP (fun u => (u.id == agentID) && (u.role == RoleServiceAgent)) = 0 →
      UpdateServiceRequest pt RoleAdmin userID requestID (demoAgentUpd agentID) db =
        (.badRequest "Invalid service agent ID", db)) ∧
    (db.serviceRequests.countP (fun sr =>
        (sr.id == requestID) && db.subscriptions.any (fun sub =>
          (sub.id == sr.subscriptionID) && db.franchises.any (fun fr =>
            (fr.id == sub.franchiseID) && (fr.ownerID == userID)))) ≠ 0 →
      db.users.countP (fun u => (u.id == agentID) && (u.role == RoleServiceAgent) &&
        db.franchises.any (fun fr => (fr.id == u.franchiseID) && (fr.ownerID == userID))) = 0 →
      UpdateServiceRequest pt RoleFranchiseOwner userID requestID (demoAgentUpd agentID) db =
        (.badRequest "Invalid service agent ID", db)) ∧
    (db.users.countP (fun u => (u.id == agentID) && (u.role == RoleServiceAgent)) ≠ 0 →
      sr0.status = ServiceStatusPending →
      (UpdateServiceRequest pt RoleAdmin userID requestID (demoAgentUpd agentID) db).1 =
        .ok "Service request updated successfully" ∧
      (UpdateServiceRequest pt RoleAdmin userID requestID
          (demoAgentUpd agentID) db).2.serviceRequests =
        db.serviceRequests.map (fun sr =>
          if sr.id == requestID then
            { sr with status := ServiceStatusAssigned, serviceAgentID := some agentID }
          else sr)) ∧
    (AssignServiceRequestToAgent "admin" requestID agentID db =
      (.ok "Service agent assigned",
       { db with serviceRequests := db.serviceRequests.map fun s =>
           if s.id == sr0.id then { s with serviceAgentID := some agentID } else s })) := by
  have hmem : sr0 ∈ db.serviceRequests := List.mem_of_find?_eq_some hsr
  have hpred := List.find?_some hsr
  have hperm : db.serviceRequests.countP (fun sr => sr.id == requestID) ≠ 0 := by
    rw [ne_eq, List.countP_eq_zero]
    intro h
    exact absurd hpred (h _ hmem)
  have hrole : ¬(RoleAdmin = RoleFranchiseOwner) := by decide
  refine ⟨?_, ?_, ?_, ?_⟩
  · intro hcnt
    unfold UpdateServiceRequest svcUpdatePermission
    rw [if_pos rfl, if_neg hperm]
    unfold svcBuildU svcAgentCount
    simp only [demoAgentUpd, ne_eq, not_true_eq_false, false_and, if_false, reduceIte]
    rw [if_pos ⟨hagent, Or.inl trivial⟩]
    rw [if_neg hrole]
    rw [if_pos hcnt]
  · intro hperm2 hcnt
    unfold UpdateServiceRequest svcUpdatePermission
    rw [if_neg (show ¬(RoleFranchiseOwner = RoleAdmin) by decide), if_pos rfl,
      if_neg hperm2]
    unfold svcBuildU svcAgentCount
    simp only [demoAgentUpd, ne_eq, not_true_eq_false, false_and, if_false, reduceIte]
    rw [if_pos ⟨hagent, Or.inr trivial⟩]
    rw [if_pos hcnt]
  · intro hcnt hpend
    have hfmap := find?_map_update db.serviceRequests requestID
      (SvcUpdates.apply { status := some ServiceStatusAssigned, serviceAgentID := some agentID })
      (fun sr => rfl) sr0 hsr
    refine ⟨?_, ?_⟩ <;>
    · unfold UpdateServiceRequest svcUpdatePermission
      rw [if_pos rfl, if_neg hperm]
      unfold svcBuildU svcAgentCount
      simp only [demoAgentUpd, ne_eq, not_true_eq_false, false_and, if_false, reduceIte]
      rw [if_pos ⟨hagent, Or.inl trivial⟩]
      rw [if_neg hrole]
      rw [if_neg hcnt]
      rw [hsr]
      simp only [Option.map_some', Option.getD_some]
      rw [if_pos hpend]
      simp only [SvcUpdates.isEmpty, Option.isNone_some, Bool.false_and, Bool.and_false,
        Bool.false_eq_true, if_false, reduceIte, hfmap]
      try rfl
  · unfold AssignServiceRequestToAgent
    rw [if_neg (by simp), if_neg hagent]
    simp only [hsr]

/-- C6 witness: assigning the real service agent 9 to pending request 1
through the update endpoint succeeds and advances the request to `assigned`
with the agent recorded. -/
theorem agent_assignment_characterization_witness :
    (UpdateServiceRequest demoParseTime RoleAdmin 2 1 (demoAgentUpd 9)
      (demoSvcDB "pending" none)).1 = .ok "Service request updated successfully" ∧
    ((UpdateServiceRequest demoParseTime RoleAdmin 2 1 (demoAgentUpd 9)
      (demoSvcDB "pending" none)).2.serviceRequests.map
        (fun sr => (sr.status, sr.serviceAgentID))) =
      [(ServiceStatusAssigned, some 9)] := by
  have h := agent_assignment_characterization demoParseTime 2 1 9
    (demoSvcDB "pending" none) (demoSR "pending" none) (by decide) (by decide)
  have h2 := h.2.2.1 (by decide) rfl
  refine ⟨h2.1, ?_⟩
  rw [h2.2]
  decide

end Aqua
